import Mathlib

/-!
Verification of the PlumFinder pipeline.

This file gives a shallow embedding, over exact rational arithmetic, of the
parts of the PlumFinder code base that the verified properties concern:

* `src/analyzer/color_detection.py` — HSV conversion (`colorsys.rgb_to_hsv`),
  `_score_color`, `_check_keywords`, `_analyze_histogram`, `_analyze_image`,
  `analyze_item`;
* `src/main.py` — `calculate_distance`, `calculate_score` and the
  filter/sort/take selection of `run_pipeline`;
* `src/database/tracker.py` — the `mark_seen` upsert;
* `src/scrapers/ebay.py` — the API/HTML fallback state machine;
* `src/scrapers/utils.py` — `retry_on_failure`.

Python floats are modelled as rationals (`ℚ`), machine-level rounding being
out of scope; byte-valued colour channels are `Fin 256`; side effects
(HTTP, SQL, clock) are made explicit as parameters or state.
-/

namespace PlumFinder

/-! ## Colour analysis (`src/analyzer/color_detection.py`) -/

/-- An RGB colour with byte channels, as produced by PIL / colorthief. -/
structure RGB where
  r : Fin 256
  g : Fin 256
  b : Fin 256

/-- Fractional part used by Python's `h % 1.0` (divisor positive, so the
result is `x - floor x`). -/
def qmod1 (x : ℚ) : ℚ := x - ⌊x⌋

/-- Embedding of `colorsys.rgb_to_hsv` for inputs scaled to `[0, 1]`.
Returns `(h, s, v)` with `h ∈ [0, 1)`. -/
def rgb_to_hsv (r g b : ℚ) : ℚ × ℚ × ℚ :=
  let maxc := max r (max g b)
  let minc := min r (min g b)
  let v := maxc
  if minc = maxc then (0, 0, v)
  else
    let s := (maxc - minc) / maxc
    let rc := (maxc - r) / (maxc - minc)
    let gc := (maxc - g) / (maxc - minc)
    let bc := (maxc - b) / (maxc - minc)
    let h := if r = maxc then bc - gc
             else if g = maxc then 2 + rc - bc
             else 4 + gc - rc
    (qmod1 (h / 6), s, v)

/-- HSV of a byte colour, i.e. `colorsys.rgb_to_hsv(r/255, g/255, b/255)`. -/
def hsv_of (p : RGB) : ℚ × ℚ × ℚ :=
  rgb_to_hsv ((p.r.val : ℚ) / 255) ((p.g.val : ℚ) / 255) ((p.b.val : ℚ) / 255)

/-- Hue in degrees (`h * 360` in the Python code). -/
def hue_deg (p : RGB) : ℚ := (hsv_of p).1 * 360

/-- Saturation component. -/
def sat_of (p : RGB) : ℚ := (hsv_of p).2.1

/-- Value component. -/
def val_of (p : RGB) : ℚ := (hsv_of p).2.2

/-- `ColorAnalyzer.PLUM_RANGES`: hue windows (degrees) considered plum. -/
def PLUM_RANGES : List (ℚ × ℚ) := [(270, 330), (330, 360), (0, 15)]

/-- The loop `for range_def in self.PLUM_RANGES: if hue_min <= h <= hue_max`. -/
def plum_hue (h : ℚ) : Bool :=
  PLUM_RANGES.any fun rd => decide (rd.1 ≤ h ∧ h ≤ rd.2)

/-- `ColorAnalyzer._score_color`. -/
def score_color (p : RGB) : ℚ :=
  let hsv := hsv_of p
  let h := hsv.1 * 360
  let s := hsv.2.1
  let v := hsv.2.2
  if s < 0.15 ∨ v < 0.15 ∨ 0.95 < v then 0
  else if plum_hue h then
    let sat_score := 1 - |s - 0.5| * 0.5
    let val_score := 1 - |v - 0.5| * 0.5
    0.8 * sat_score * val_score
  else 0

/-- Python's `str.lower` restricted to the ASCII range (`Char.toLower`). -/
def to_lower (s : List Char) : List Char := s.map Char.toLower

/-- Python's substring test `kw in text`. -/
def is_sub (kw text : List Char) : Bool := decide (kw <:+: text)

/-- Strong keyword tier of `_check_keywords`. -/
def strong_keywords : List (List Char) :=
  [String.toList "plum", String.toList "eggplant", String.toList "aubergine"]

/-- Medium keyword tier of `_check_keywords`. -/
def medium_keywords : List (List Char) :=
  [String.toList "purple", String.toList "violet", String.toList "grape"]

/-- Weak keyword tier of `_check_keywords`. -/
def weak_keywords : List (List Char) :=
  [String.toList "mauve", String.toList "lavender", String.toList "burgundy",
   String.toList "wine", String.toList "berry"]

/-- `ColorAnalyzer._check_keywords`. -/
def check_keywords (text : List Char) : ℚ :=
  if text.isEmpty then 0
  else
    let tl := to_lower text
    if strong_keywords.any fun kw => is_sub kw tl then 0.9
    else if medium_keywords.any fun kw => is_sub kw tl then 0.7
    else if weak_keywords.any fun kw => is_sub kw tl then 0.5
    else 0

/-- The per-pixel test of `_analyze_histogram`: `s > 0.2 and v > 0.2` and the
hue falls in one of `PLUM_RANGES`. -/
def pixel_is_purple (p : RGB) : Bool :=
  decide (0.2 < sat_of p) && decide (0.2 < val_of p) && plum_hue (hue_deg p)

/-- `ColorAnalyzer._analyze_histogram`, applied to the pixel list of the
decoded (RGB, thumbnailed) image. -/
def analyze_histogram (pixels : List RGB) : ℚ :=
  if pixels.isEmpty then 0
  else
    let total : ℚ := pixels.length
    let purple : ℚ := pixels.countP pixel_is_purple
    let purple_frac := purple / total
    if 0.3 < purple_frac then 0.95
    else if 0.2 < purple_frac then 0.85
    else if 0.1 < purple_frac then 0.7
    else if 0.05 < purple_frac then 0.5
    else if 0.02 < purple_frac then 0.3
    else 0

/-- Python's `max(l)` on a nonempty list, `0` when the list is empty (the
code guards emptiness before calling `max`). -/
def list_max : List ℚ → ℚ
  | [] => 0
  | x :: xs => xs.foldl max x

/-- The data `_analyze_image` extracts from one downloaded image: the
colorthief dominant colour, the colorthief palette (empty when palette
extraction raises), and the pixel grid used by the histogram pass. -/
structure ImageData where
  dominant : RGB
  palette : List RGB
  pixels : List RGB

/-- `ColorAnalyzer._analyze_image` on a successfully downloaded image:
`max(dominant_score, best_palette_score * 0.9, histogram_score * 0.8)`. -/
def analyze_image (img : ImageData) : ℚ :=
  let dominant_score := score_color img.dominant
  let best_palette_score := list_max (img.palette.map score_color)
  let histogram_score := analyze_histogram img.pixels
  max dominant_score (max (best_palette_score * 0.9) (histogram_score * 0.8))

/-- Score of one image URL as seen by `analyze_item`: a failed download or
decode raises inside `_analyze_image`, is caught there, and yields `0.0`
(modelled by `none`). -/
def image_score : Option ImageData → ℚ
  | none => 0
  | some img => analyze_image img

/-- `ColorAnalyzer.analyze_item`: keyword score plus the first three image
scores, keeping only the nonzero ones; a lone keyword score is discounted
by `0.7`, otherwise the best score wins. -/
def analyze_item (title : List Char) (images : List (Option ImageData)) : ℚ :=
  let keyword_score := check_keywords title
  let img_scores := ((images.take 3).map image_score).filter fun x => decide (0 < x)
  let scores := (if 0 < keyword_score then [keyword_score] else []) ++ img_scores
  if scores.isEmpty then 0
  else if scores.length = 1 ∧ 0 < keyword_score then keyword_score * 0.7
  else list_max scores

/-! ## Ranking and selection (`src/main.py`, `config.py`) -/

/-- `config.MAX_DISTANCE_MILES`. -/
def MAX_DISTANCE_MILES : ℚ := 20

/-- `config.MAX_ITEMS_PER_EMAIL`. -/
def MAX_ITEMS_PER_EMAIL : Nat := 30

/-- The `COLOR_THRESHOLD` local of `run_pipeline`. -/
def COLOR_THRESHOLD : ℚ := 0.3

/-- The `nearby_cities` table of `calculate_distance`, in Python dict
insertion (= iteration) order. -/
def nearby_cities : List (List Char × ℚ) :=
  [(String.toList "palo alto", 0), (String.toList "menlo park", 3),
   (String.toList "stanford", 1), (String.toList "mountain view", 5),
   (String.toList "los altos", 4), (String.toList "redwood city", 7),
   (String.toList "sunnyvale", 8), (String.toList "san jose", 15),
   (String.toList "santa clara", 12), (String.toList "cupertino", 10),
   (String.toList "san mateo", 12), (String.toList "fremont", 18),
   (String.toList "oakland", 25), (String.toList "san francisco", 30),
   (String.toList "sf", 30)]

/-- `calculate_distance` of `src/main.py`: first city whose name occurs
in the lowercased location wins; empty or unmatched locations default to
`MAX_DISTANCE_MILES`. -/
def calculate_distance (location : List Char) : ℚ :=
  if location.isEmpty then MAX_DISTANCE_MILES
  else
    match nearby_cities.find? fun c => is_sub c.1 (to_lower location) with
    | some c => c.2
    | none => MAX_DISTANCE_MILES

/-- The fields of a listing that `calculate_score` reads.  `hours_old`
stands for `(datetime.now() - posted_date).total_seconds() / 3600`, `none`
meaning `posted_date` is `None`. -/
structure Item where
  color_score : ℚ
  hours_old : Option ℚ
  price : Option ℚ
  shippable : Bool
  distance_miles : Option ℚ

/-- The `recency_score` local of `calculate_score`. -/
def recency_score (item : Item) : ℚ :=
  match item.hours_old with
  | some h => max 0 (1 - h / 168)
  | none => 0.5

/-- The `price_score` local of `calculate_score` (`if item.price and
item.price > 0`: a `None`, zero or negative price scores `0.5`). -/
def price_score (item : Item) : ℚ :=
  match item.price with
  | some p => if 0 < p then max 0 (1 - p / 500) else 0.5
  | none => 0.5

/-- The `proximity_score` local of `calculate_score`. -/
def proximity_score (item : Item) : ℚ :=
  if item.shippable then 1
  else
    match item.distance_miles with
    | some d => max 0 (1 - d / MAX_DISTANCE_MILES)
    | none => 0.5

/-- `calculate_score` of `src/main.py`. -/
def calculate_score (item : Item) : ℚ :=
  item.color_score * 0.4 + recency_score item * 0.3 +
    price_score item * 0.15 + proximity_score item * 0.15

/-- The comparison Python's stable `list.sort(key=..., reverse=True)`
realises: `a` may stay before `b` iff `score b ≤ score a`. -/
def score_ge (a b : Item) : Bool := decide (calculate_score b ≤ calculate_score a)

/-- Steps 4–5 of `run_pipeline` up to the sort: filter by the colour gate,
then stable-sort descending by composite score. -/
def plum_sorted (items : List Item) : List Item :=
  (items.filter fun i => decide (COLOR_THRESHOLD ≤ i.color_score)).mergeSort score_ge

/-- `top_items` of `run_pipeline`: the first `MAX_ITEMS_PER_EMAIL` of the
sorted, gated list. -/
def select_top (items : List Item) : List Item :=
  (plum_sorted items).take MAX_ITEMS_PER_EMAIL

/-! ## Seen-item tracking (`src/database/tracker.py`) -/

/-- One row of the `seen_items` table. -/
structure SeenRecord where
  url : List Char
  title : List Char
  source : List Char
  first_seen_at : Nat
  last_seen_at : Nat
  sent_in_email : Bool

/-- The columns of an item that `mark_seen` binds into its SQL. -/
structure DbItem where
  id : Nat
  url : List Char
  title : List Char
  source : List Char

/-- The `seen_items` table, keyed by the `id` primary key. -/
def Db : Type := Nat → Option SeenRecord

/-- `ItemTracker.mark_seen` at time `now`:
`INSERT ... VALUES (..., now, now, 0) ON CONFLICT(id) DO UPDATE SET
last_seen_at = now` — on conflict only `last_seen_at` changes. -/
def mark_seen (db : Db) (item : DbItem) (now : Nat) : Db :=
  fun k =>
    if k = item.id then
      match db item.id with
      | none => some ⟨item.url, item.title, item.source, now, now, false⟩
      | some r => some ⟨r.url, r.title, r.source, r.first_seen_at, now, r.sent_in_email⟩
    else db k

/-- `ItemTracker.is_seen`. -/
def is_seen (db : Db) (item_id : Nat) : Bool := (db item_id).isSome

/-! ## eBay adapter fallback (`src/scrapers/ebay.py`) -/

/-- The mutable adapter fields that govern the API/HTML choice. -/
structure EbayState where
  has_app_id : Bool
  use_api : Bool
  access_token : Option Nat
  token_expiry : Nat

/-- `EbayScraper.__init__`: `use_api = bool(app_id)`, no token cached. -/
def init_state (has_app_id : Bool) : EbayState :=
  ⟨has_app_id, has_app_id, none, 0⟩

/-- Outcome of the OAuth POST in `_get_access_token`: a 200 with a token
and `expires_in`, or a failure (non-200 status or raised exception — both
set `use_api = False`). -/
inductive AuthOutcome where
  | ok (token : Nat) (expires_in : Nat)
  | fail

/-- Outcome of the Browse API GET in `_search_api`: 200 with items, 401
(token expired), or any other error status / exception. -/
inductive ApiOutcome where
  | ok (items : List Nat)
  | unauthorized
  | err

/-- The environment one `search` call observes: the clock, the OAuth
response (if requested), the API response (if requested), and what HTML
scraping would return. -/
structure SearchEnv where
  time : Nat
  auth : AuthOutcome
  api : ApiOutcome
  html : List Nat

/-- `EbayScraper._get_access_token`. -/
def get_access_token (s : EbayState) (t : Nat) (auth : AuthOutcome) :
    Option Nat × EbayState :=
  if s.access_token.isSome ∧ t < s.token_expiry then (s.access_token, s)
  else if s.has_app_id = false then (none, s)
  else
    match auth with
    | .ok tok expires_in =>
        (some tok, { s with access_token := some tok, token_expiry := t + expires_in - 60 })
    | .fail => (none, { s with use_api := false })

/-- `EbayScraper._search_api`: `none` models the Python `None` return that
triggers the HTML fallback for this call. -/
def search_api (s : EbayState) (env : SearchEnv) : Option (List Nat) × EbayState :=
  let p := get_access_token s env.time env.auth
  match p.1 with
  | none => (none, p.2)
  | some _ =>
      match env.api with
      | .ok items => (some items, p.2)
      | .unauthorized => (none, { p.2 with access_token := none, token_expiry := 0 })
      | .err => (none, p.2)

/-- Result of one `search` call: the new adapter state, whether the API
path was attempted, and the items returned. -/
structure SearchResult where
  state : EbayState
  api_attempted : Bool
  items : List Nat

/-- `EbayScraper.search`. -/
def ebay_search (s : EbayState) (env : SearchEnv) : SearchResult :=
  if s.use_api then
    let p := search_api s env
    match p.1 with
    | some items => ⟨p.2, true, items⟩
    | none => ⟨p.2, true, env.html⟩
  else ⟨s, false, env.html⟩

/-- The `api_attempted` bits of a sequence of `search` calls. -/
def search_trace (s : EbayState) : List SearchEnv → List Bool
  | [] => []
  | env :: rest =>
      let r := ebay_search s env
      r.api_attempted :: search_trace r.state rest

/-- An OAuth request actually happens during this call: the API path is
live, no unexpired token is cached, and an app id is configured. -/
def oauth_attempted (s : EbayState) (env : SearchEnv) : Prop :=
  s.use_api = true ∧ ¬(s.access_token.isSome ∧ env.time < s.token_expiry) ∧
    s.has_app_id = true

/-- An auth failure during this call: the OAuth request happens and fails
(invalid credential, non-200 or exception). -/
def auth_failure (s : EbayState) (env : SearchEnv) : Prop :=
  oauth_attempted s env ∧ env.auth = .fail

/-! ## Retry executor (`src/scrapers/utils.py`) -/

/-- The loop body of `retry_on_failure`, with `fuel` retries left:
returns the final outcome together with the number of attempts made. -/
def retry_go {E A : Type} (op : Nat → Except E A) (attempt : Nat) :
    Nat → Except E A × Nat
  | 0 => (op attempt, 1)
  | fuel + 1 =>
      match op attempt with
      | .ok a => (.ok a, 1)
      | .error _ =>
          let p := retry_go op (attempt + 1) fuel
          (p.1, p.2 + 1)

/-- `retry_on_failure(func, max_retries, ...)`: the `attempt`-indexed `op`
models successive calls of `func`; the returned `Nat` counts attempts. -/
def retry_on_failure {E A : Type} (op : Nat → Except E A) (max_retries : Nat) :
    Except E A × Nat :=
  retry_go op 0 max_retries

/-- The inter-attempt delay `min(base_delay * (2 ** attempt), max_delay)`. -/
def retry_delay (base_delay max_delay : ℚ) (attempt : Nat) : ℚ :=
  min (base_delay * 2 ^ attempt) max_delay

/-! ## Basic lemmas -/

lemma le_foldl_max (l : List ℚ) (a : ℚ) : a ≤ l.foldl max a := by
  induction l generalizing a with
  | nil => exact le_refl a
  | cons x xs ih => exact le_trans (le_max_left a x) (ih (max a x))

lemma foldl_max_le (l : List ℚ) (a c : ℚ) (ha : a ≤ c) (h : ∀ x ∈ l, x ≤ c) :
    l.foldl max a ≤ c := by
  induction l generalizing a with
  | nil => exact ha
  | cons x xs ih =>
      exact ih (max a x) (max_le ha (h x (List.mem_cons_self x xs)))
        fun y hy => h y (List.mem_cons_of_mem x hy)

lemma foldl_max_mem_le (l : List ℚ) (a x : ℚ) (hx : x ∈ l) : x ≤ l.foldl max a := by
  induction l generalizing a with
  | nil => cases hx
  | cons y ys ih =>
      rcases List.mem_cons.mp hx with h | h
      · subst h
        exact le_trans (le_max_right a x) (le_foldl_max ys (max a x))
      · exact ih (max a y) h

lemma foldl_max_filter_pos (l : List ℚ) (a : ℚ) (hl : ∀ x ∈ l, 0 ≤ x) (ha : 0 < a) :
    (l.filter fun x => decide (0 < x)).foldl max a = l.foldl max a := by
  induction l generalizing a with
  | nil => rfl
  | cons x xs ih =>
      by_cases hx : 0 < x
      · have hdx : (decide (0 < x)) = true := decide_eq_true hx
        simp only [List.filter_cons, hdx, if_true, List.foldl_cons]
        exact ih (max a x) (fun y hy => hl y (List.mem_cons_of_mem x hy))
          (lt_of_lt_of_le hx (le_max_right a x))
      · have hx0 : x = 0 :=
          le_antisymm (not_lt.mp hx) (hl x (List.mem_cons_self x xs))
        have hmax : max a x = a := max_eq_left (hx0 ▸ le_of_lt ha)
        have hdx : (decide (0 < x)) = false := decide_eq_false hx
        simp only [List.filter_cons, hdx, if_false, List.foldl_cons, hmax]
        exact ih a (fun y hy => hl y (List.mem_cons_of_mem x hy)) ha

lemma list_max_le (l : List ℚ) (c : ℚ) (hc : 0 ≤ c) (h : ∀ x ∈ l, x ≤ c) :
    list_max l ≤ c := by
  cases l with
  | nil => exact hc
  | cons x xs =>
      exact foldl_max_le xs x c (h x (List.mem_cons_self x xs))
        fun y hy => h y (List.mem_cons_of_mem x hy)

lemma list_max_nonneg (l : List ℚ) (h : ∀ x ∈ l, 0 ≤ x) : 0 ≤ list_max l := by
  cases l with
  | nil => exact le_refl 0
  | cons x xs =>
      exact le_trans (h x (List.mem_cons_self x xs)) (le_foldl_max xs x)

/-! ## HSV bounds -/

lemma rgb_to_hsv_sat_val_bounds (r g b : ℚ)
    (hr0 : 0 ≤ r) (hr1 : r ≤ 1) (hg0 : 0 ≤ g) (hg1 : g ≤ 1) (hb0 : 0 ≤ b) (hb1 : b ≤ 1) :
    0 ≤ (rgb_to_hsv r g b).2.1 ∧ (rgb_to_hsv r g b).2.1 ≤ 1 ∧
      0 ≤ (rgb_to_hsv r g b).2.2 ∧ (rgb_to_hsv r g b).2.2 ≤ 1 := by
  have hmax0 : 0 ≤ max r (max g b) := le_trans hr0 (le_max_left _ _)
  have hmax1 : max r (max g b) ≤ 1 := max_le hr1 (max_le hg1 hb1)
  have hmin0 : 0 ≤ min r (min g b) := le_min hr0 (le_min hg0 hb0)
  have hminmax : min r (min g b) ≤ max r (max g b) :=
    le_trans (min_le_left _ _) (le_max_left _ _)
  rw [rgb_to_hsv]
  by_cases h : min r (min g b) = max r (max g b)
  · simp only [h, if_pos rfl]
    exact ⟨le_refl 0, by norm_num, hmax0, hmax1⟩
  · rw [if_neg h]
    have hlt : min r (min g b) < max r (max g b) := lt_of_le_of_ne hminmax h
    have hpos : 0 < max r (max g b) := lt_of_le_of_lt hmin0 hlt
    refine ⟨div_nonneg (sub_nonneg.mpr hminmax) (le_of_lt hpos), ?_, hmax0, hmax1⟩
    rw [div_le_one hpos]
    linarith

lemma rgb_channel_unit (x : Fin 256) : 0 ≤ (x.val : ℚ) / 255 ∧ (x.val : ℚ) / 255 ≤ 1 := by
  constructor
  · positivity
  · rw [div_le_one (by norm_num : (0:ℚ) < 255)]
    have : (x.val : ℚ) ≤ 255 := by
      exact_mod_cast Nat.le_of_lt_succ x.isLt
    exact this

lemma sat_val_bounds (p : RGB) :
    0 ≤ sat_of p ∧ sat_of p ≤ 1 ∧ 0 ≤ val_of p ∧ val_of p ≤ 1 := by
  have hr := rgb_channel_unit p.r
  have hg := rgb_channel_unit p.g
  have hb := rgb_channel_unit p.b
  exact rgb_to_hsv_sat_val_bounds _ _ _ hr.1 hr.2 hg.1 hg.2 hb.1 hb.2

/-! ## Component bounds -/

lemma score_color_nonneg (p : RGB) : 0 ≤ score_color p := by
  obtain ⟨hs0, hs1, hv0, hv1⟩ := sat_val_bounds p
  rw [score_color]
  split
  · exact le_refl 0
  · split
    · have habs_s : |(hsv_of p).2.1 - 0.5| ≤ 0.5 := by
        rw [abs_le]
        constructor <;> [skip; skip] <;>
          simp only [sat_of] at hs0 hs1 <;> norm_num <;> linarith
      have habs_v : |(hsv_of p).2.2 - 0.5| ≤ 0.5 := by
        rw [abs_le]
        constructor <;> [skip; skip] <;>
          simp only [val_of] at hv0 hv1 <;> norm_num <;> linarith
      have h1 : (0:ℚ) ≤ 1 - |(hsv_of p).2.1 - 0.5| * 0.5 := by nlinarith [abs_nonneg ((hsv_of p).2.1 - 0.5)]
      have h2 : (0:ℚ) ≤ 1 - |(hsv_of p).2.2 - 0.5| * 0.5 := by nlinarith [abs_nonneg ((hsv_of p).2.2 - 0.5)]
      positivity
    · exact le_refl 0

lemma score_color_le (p : RGB) : score_color p ≤ 0.8 := by
  obtain ⟨hs0, hs1, hv0, hv1⟩ := sat_val_bounds p
  rw [score_color]
  split
  · norm_num
  · split
    · have h1 : 1 - |(hsv_of p).2.1 - 0.5| * 0.5 ≤ 1 := by
        nlinarith [abs_nonneg ((hsv_of p).2.1 - 0.5)]
      have h1n : (0:ℚ) ≤ 1 - |(hsv_of p).2.1 - 0.5| * 0.5 := by
        have : |(hsv_of p).2.1 - 0.5| ≤ 0.5 := by
          rw [abs_le]; simp only [sat_of] at hs0 hs1; constructor <;> linarith
        nlinarith
      have h2 : 1 - |(hsv_of p).2.2 - 0.5| * 0.5 ≤ 1 := by
        nlinarith [abs_nonneg ((hsv_of p).2.2 - 0.5)]
      have h2n : (0:ℚ) ≤ 1 - |(hsv_of p).2.2 - 0.5| * 0.5 := by
        have : |(hsv_of p).2.2 - 0.5| ≤ 0.5 := by
          rw [abs_le]; simp only [val_of] at hv0 hv1; constructor <;> linarith
        nlinarith
      nlinarith
    · norm_num

lemma check_keywords_nonneg (text : List Char) : 0 ≤ check_keywords text := by
  simp only [check_keywords]
  split_ifs <;> norm_num

lemma check_keywords_le (text : List Char) : check_keywords text ≤ 0.9 := by
  simp only [check_keywords]
  split_ifs <;> norm_num

lemma analyze_histogram_nonneg (pixels : List RGB) : 0 ≤ analyze_histogram pixels := by
  simp only [analyze_histogram]
  split_ifs <;> norm_num

lemma analyze_histogram_le (pixels : List RGB) : analyze_histogram pixels ≤ 0.95 := by
  simp only [analyze_histogram]
  split_ifs <;> norm_num

lemma analyze_image_nonneg (img : ImageData) : 0 ≤ analyze_image img := by
  rw [analyze_image]
  exact le_trans (score_color_nonneg img.dominant) (le_max_left _ _)

lemma analyze_image_le (img : ImageData) : analyze_image img ≤ 0.8 := by
  rw [analyze_image]
  have hpal : list_max (img.palette.map score_color) ≤ 0.8 := by
    refine list_max_le _ _ (by norm_num) ?_
    intro x hx
    obtain ⟨p, _, rfl⟩ := List.mem_map.mp hx
    exact score_color_le p
  have hpal0 : 0 ≤ list_max (img.palette.map score_color) := by
    refine list_max_nonneg _ ?_
    intro x hx
    obtain ⟨p, _, rfl⟩ := List.mem_map.mp hx
    exact score_color_nonneg p
  have hhist := analyze_histogram_le img.pixels
  have hhist0 := analyze_histogram_nonneg img.pixels
  refine max_le (score_color_le img.dominant) (max_le ?_ ?_) <;> nlinarith

lemma image_score_nonneg (o : Option ImageData) : 0 ≤ image_score o := by
  cases o with
  | none => exact le_refl 0
  | some img => exact analyze_image_nonneg img

lemma image_score_le (o : Option ImageData) : image_score o ≤ 0.8 := by
  cases o with
  | none => norm_num [image_score]
  | some img => exact analyze_image_le img

/-! ## Behaviour of `analyze_item` -/

lemma analyze_item_keyword_only (title : List Char) (images : List (Option ImageData))
    (hkw : 0 < check_keywords title)
    (h : ∀ s ∈ (images.take 3).map image_score, ¬ 0 < s) :
    analyze_item title images = check_keywords title * 0.7 := by
  rw [analyze_item]
  have hfilter : (((images.take 3).map image_score).filter fun x => decide (0 < x)) = [] := by
    rw [List.filter_eq_nil_iff]
    intro a ha
    simp only [decide_eq_true_eq]
    exact h a ha
  simp only [hfilter, if_pos hkw, List.append_nil]
  rw [if_neg (by simp), if_pos ⟨rfl, hkw⟩]

lemma analyze_item_with_image (title : List Char) (images : List (Option ImageData))
    (hkw : 0 < check_keywords title)
    (h : ∃ s ∈ (images.take 3).map image_score, 0 < s) :
    analyze_item title images =
      ((images.take 3).map image_score).foldl max (check_keywords title) := by
  rw [analyze_item]
  obtain ⟨s, hs, hspos⟩ := h
  have hmem : s ∈ ((images.take 3).map image_score).filter fun x => decide (0 < x) :=
    List.mem_filter.mpr ⟨hs, decide_eq_true hspos⟩
  have hne : (((images.take 3).map image_score).filter fun x => decide (0 < x)) ≠ [] :=
    List.ne_nil_of_mem hmem
  have hnonneg : ∀ x ∈ (images.take 3).map image_score, 0 ≤ x := by
    intro x hx
    obtain ⟨o, _, rfl⟩ := List.mem_map.mp hx
    exact image_score_nonneg o
  simp only [if_pos hkw]
  cases hfl : ((images.take 3).map image_score).filter fun x => decide (0 < x) with
  | nil => exact absurd hfl hne
  | cons y ys =>
      rw [if_neg (by simp), if_neg (by simp)]
      show list_max (check_keywords title :: y :: ys) = _
      rw [list_max]
      show List.foldl max (max (check_keywords title) y) ys = _
      have : (y :: ys).foldl max (check_keywords title) =
          ((images.take 3).map image_score).foldl max (check_keywords title) := by
        rw [← hfl]
        exact foldl_max_filter_pos _ _ hnonneg hkw
      simpa using this

lemma analyze_item_max_ge_keyword (title : List Char) (images : List (Option ImageData)) :
    check_keywords title ≤
      ((images.take 3).map image_score).foldl max (check_keywords title) :=
  le_foldl_max _ _

lemma check_keywords_strong (text : List Char) (hne : text.isEmpty = false)
    (h : (strong_keywords.any fun kw => is_sub kw (to_lower text)) = true) :
    check_keywords text = 0.9 := by
  simp only [check_keywords, hne, h, Bool.false_eq_true, if_false, if_true]

/-! ## Claims -/

/-- C1: for an item whose title yields a nonzero keyword score,
`analyze_item` applies the ×0.7 discount to the keyword score exactly when
no image analysis succeeded with a nonzero score (an image-confirmed
match); as soon as some image score is positive, the result is the
undiscounted maximum over the keyword score and all image scores. -/
theorem c1_keyword_discount (title : List Char) (images : List (Option ImageData))
    (hkw : 0 < check_keywords title) :
    (analyze_item title images = check_keywords title * 0.7 ↔
      ∀ s ∈ (images.take 3).map image_score, ¬ 0 < s)
    ∧ ((∃ s ∈ (images.take 3).map image_score, 0 < s) →
        analyze_item title images =
          ((images.take 3).map image_score).foldl max (check_keywords title)) := by
  refine ⟨⟨?_, analyze_item_keyword_only title images hkw⟩,
    analyze_item_with_image title images hkw⟩
  intro heq
  by_contra hneg
  push_neg at hneg
  have hmax := analyze_item_with_image title images hkw hneg
  have hge : check_keywords title ≤ analyze_item title images := by
    rw [hmax]
    exact le_foldl_max _ _
  rw [heq] at hge
  linarith

/-- Witness for C1 at a concrete plum-titled item with no images. -/
theorem c1_keyword_discount_witness :
    analyze_item (String.toList "Plum vase") [] =
      check_keywords (String.toList "Plum vase") * 0.7 := by
  have hkw : (0:ℚ) < check_keywords (String.toList "Plum vase") := by
    rw [check_keywords_strong (String.toList "Plum vase") (by decide) (by decide)]
    norm_num
  exact (c1_keyword_discount (String.toList "Plum vase") [] hkw).1.mpr (by simp)

/-- C2: any title containing "plum" in any letter case gets keyword score
at least 0.9, and when no image contributes a positive score the item
score is exactly 0.63 = 0.9 × 0.7. -/
theorem c2_plum_title_score (title : List Char) (images : List (Option ImageData))
    (w : List Char) (hw : w.map Char.toLower = String.toList "plum")
    (hsub : w <:+: title) :
    0.9 ≤ check_keywords title ∧
      ((∀ s ∈ (images.take 3).map image_score, ¬ 0 < s) →
        analyze_item title images = 0.63) := by
  have htne : title.isEmpty = false := by
    obtain ⟨s, t, rfl⟩ := hsub
    have hwne : w ≠ [] := by
      intro hcontra
      rw [hcontra] at hw
      exact absurd hw (by decide)
    cases w with
    | nil => exact absurd rfl hwne
    | cons c cs => cases s <;> rfl
  have hstrong : (strong_keywords.any fun kw => is_sub kw (to_lower title)) = true := by
    refine List.any_eq_true.mpr ⟨String.toList "plum", by simp [strong_keywords], ?_⟩
    rw [is_sub, decide_eq_true_eq]
    have hmap := List.IsInfix.map Char.toLower hsub
    rw [hw] at hmap
    exact hmap
  have heq : check_keywords title = 0.9 :=
    check_keywords_strong title htne hstrong
  refine ⟨le_of_eq heq.symm, fun h => ?_⟩
  rw [analyze_item_keyword_only title images (by rw [heq]; norm_num) h, heq]
  norm_num

/-- Witness for C2 at the title "PLUM pillow" (uppercase match) with no
images. -/
theorem c2_plum_title_score_witness :
    0.9 ≤ check_keywords (String.toList "PLUM pillow") ∧
      analyze_item (String.toList "PLUM pillow") [] = 0.63 := by
  have h := c2_plum_title_score (String.toList "PLUM pillow") []
    (String.toList "PLUM") (by decide) (by decide)
  exact ⟨h.1, h.2 (by simp)⟩

/-- C9: `_score_color` is 0 outside the saturation/value box
(`s < 0.15` or `v < 0.15` or `v > 0.95`) or outside the three hue ranges,
and otherwise equals `0.8 * (1 - 0.5|s - 0.5|) * (1 - 0.5|v - 0.5|)`. -/
theorem c9_score_color_formula (p : RGB) :
    score_color p =
      if sat_of p < 0.15 ∨ val_of p < 0.15 ∨ 0.95 < val_of p then 0
      else if (270 ≤ hue_deg p ∧ hue_deg p ≤ 330) ∨
          (330 ≤ hue_deg p ∧ hue_deg p ≤ 360) ∨
          (0 ≤ hue_deg p ∧ hue_deg p ≤ 15) then
        0.8 * (1 - 0.5 * |sat_of p - 0.5|) * (1 - 0.5 * |val_of p - 0.5|)
      else 0 := by
  simp only [score_color, sat_of, val_of, hue_deg, plum_hue, PLUM_RANGES,
    List.any_cons, List.any_nil, Bool.or_eq_true, Bool.false_eq_true, or_false,
    decide_eq_true_eq]
  split_ifs <;> ring

/-- C10: `analyze_item` always lands in `[0, 0.9]`; in particular 1.0 is
unreachable, since keyword scores top out at 0.9 and per-image scores at
0.8. -/
theorem c10_analyze_item_range (title : List Char) (images : List (Option ImageData)) :
    0 ≤ analyze_item title images ∧ analyze_item title images ≤ 0.9 := by
  have hkw0 := check_keywords_nonneg title
  have hkw1 := check_keywords_le title
  have hmem : ∀ x ∈ (if 0 < check_keywords title then [check_keywords title] else []) ++
      (((images.take 3).map image_score).filter fun x => decide (0 < x)),
      0 ≤ x ∧ x ≤ 0.9 := by
    intro x hx
    rcases List.mem_append.mp hx with h | h
    · by_cases hc : 0 < check_keywords title
      · rw [if_pos hc] at h
        rw [List.mem_singleton.mp h]
        exact ⟨hkw0, hkw1⟩
      · rw [if_neg hc] at h
        cases h
    · obtain ⟨o, _, rfl⟩ := List.mem_map.mp (List.mem_filter.mp h).1
      exact ⟨image_score_nonneg o, le_trans (image_score_le o) (by norm_num)⟩
  simp only [analyze_item]
  set S := (if 0 < check_keywords title then [check_keywords title] else []) ++
      (((images.take 3).map image_score).filter fun x => decide (0 < x)) with hS
  split_ifs with h1 h2
  · norm_num
  · constructor <;> nlinarith [h2.2]
  · exact ⟨list_max_nonneg _ fun x hx => (hmem x hx).1,
      list_max_le _ _ (by norm_num) fun x hx => (hmem x hx).2⟩

/-- Concrete HSV evaluation used by the C3 theorems: the colour
`(200, 164, 200)` has hue 300°, saturation 0.18 and value 200/255. -/
lemma hsv_of_pale (h200 : ((200 : Fin 256) : ℕ) = 200) (h164 : ((164 : Fin 256) : ℕ) = 164) :
    hsv_of ⟨200, 164, 200⟩ = (5/6, 9/50, 40/51) := by
  norm_num [hsv_of, rgb_to_hsv, qmod1, max_def, min_def, h200, h164]

/-- C3 (amended): in `_analyze_histogram` a pixel counts as plum/purple
iff its hue lies in one of the three ranges 270–330°, 330–360°, 0–15° AND
its saturation is strictly greater than 0.2 AND its value is strictly
greater than 0.2 (no upper bound on value); the ratio of such pixels is
bucketed to 0.95 when > 0.3, 0.85 when > 0.2, 0.7 when > 0.1, 0.5 when
> 0.05, 0.3 when > 0.02, and 0 otherwise. -/
theorem c3_histogram_amended (pixels : List RGB) (p : RGB) :
    (pixel_is_purple p = true ↔
      0.2 < sat_of p ∧ 0.2 < val_of p ∧
        ((270 ≤ hue_deg p ∧ hue_deg p ≤ 330) ∨ (330 ≤ hue_deg p ∧ hue_deg p ≤ 360) ∨
         (0 ≤ hue_deg p ∧ hue_deg p ≤ 15)))
    ∧ (pixels ≠ [] →
        analyze_histogram pixels =
          (if 0.3 < (pixels.countP pixel_is_purple : ℚ) / (pixels.length : ℚ) then 0.95
           else if 0.2 < (pixels.countP pixel_is_purple : ℚ) / (pixels.length : ℚ) then 0.85
           else if 0.1 < (pixels.countP pixel_is_purple : ℚ) / (pixels.length : ℚ) then 0.7
           else if 0.05 < (pixels.countP pixel_is_purple : ℚ) / (pixels.length : ℚ) then 0.5
           else if 0.02 < (pixels.countP pixel_is_purple : ℚ) / (pixels.length : ℚ) then 0.3
           else 0)) := by
  constructor
  · simp only [pixel_is_purple, plum_hue, PLUM_RANGES, List.any_cons, List.any_nil,
      Bool.and_eq_true, Bool.or_eq_true, Bool.false_eq_true, or_false,
      decide_eq_true_eq]
    tauto
  · intro hne
    have hE : pixels.isEmpty = false := by
      cases pixels with
      | nil => exact absurd rfl hne
      | cons a l => rfl
    simp only [analyze_histogram, hE, Bool.false_eq_true, if_false]

/-- Witness for C3 (amended) at a one-pixel pure-purple image: the pixel
`(128, 0, 128)` qualifies and the bucketed score is 0.95. -/
theorem c3_histogram_amended_witness :
    pixel_is_purple ⟨128, 0, 128⟩ = true ∧
      analyze_histogram [(⟨128, 0, 128⟩ : RGB)] = 0.95 := by
  have h := c3_histogram_amended [(⟨128, 0, 128⟩ : RGB)] ⟨128, 0, 128⟩
  have hhsv : hsv_of ⟨128, 0, 128⟩ = (5/6, 1, 128/255) := by
    norm_num [hsv_of, rgb_to_hsv, qmod1, max_def, min_def,
      show ((128 : Fin 256) : ℕ) = 128 from rfl, show ((0 : Fin 256) : ℕ) = 0 from rfl]
  have hpix : pixel_is_purple ⟨128, 0, 128⟩ = true := by
    refine h.1.mpr ?_
    rw [sat_of, val_of, hue_deg, hhsv]
    norm_num
  refine ⟨hpix, ?_⟩
  rw [h.2 (by simp)]
  norm_num [List.countP, List.countP.go, hpix]

/-- Counterexample to C3 as stated: the pixel `(200, 164, 200)` satisfies
the claimed criteria (hue 300° in range, saturation 0.18 ≥ 0.15, value
200/255 in [0.15, 0.95]) so the claim predicts a one-pixel image scores
0.95, but the code requires saturation > 0.2, does not count the pixel,
and scores the image 0. -/
theorem c3_histogram_counterexample :
    (0.15 ≤ sat_of ⟨200, 164, 200⟩ ∧ 0.15 ≤ val_of ⟨200, 164, 200⟩ ∧
      val_of ⟨200, 164, 200⟩ ≤ 0.95 ∧ 270 ≤ hue_deg ⟨200, 164, 200⟩ ∧
      hue_deg ⟨200, 164, 200⟩ ≤ 330)
    ∧ pixel_is_purple ⟨200, 164, 200⟩ = false
    ∧ analyze_histogram [(⟨200, 164, 200⟩ : RGB)] = 0
    ∧ (0 : ℚ) ≠ 0.95 := by
  have hhsv : hsv_of ⟨200, 164, 200⟩ = (5/6, 9/50, 40/51) := hsv_of_pale rfl rfl
  have hsat : sat_of ⟨200, 164, 200⟩ = 9/50 := by rw [sat_of, hhsv]
  have hval : val_of ⟨200, 164, 200⟩ = 40/51 := by rw [val_of, hhsv]
  have hhue : hue_deg ⟨200, 164, 200⟩ = 300 := by rw [hue_deg, hhsv]; norm_num
  have hpix : pixel_is_purple ⟨200, 164, 200⟩ = false := by
    simp only [pixel_is_purple, hsat]
    norm_num
  refine ⟨?_, hpix, ?_, by norm_num⟩
  · rw [hsat, hval, hhue]
    norm_num
  · simp only [analyze_histogram]
    norm_num [List.countP, List.countP.go, hpix]

/-- C7 (amended): the distance lookup returns the mile value of the FIRST
city of the table (in insertion order) whose name occurs case-insensitively
in the location; a location containing "Palo Alto" always yields 0 because
"palo alto" is first in the table; unmatched or missing locations yield
`MAX_DISTANCE_MILES`, and a non-shippable item at that default distance
receives a proximity score of exactly 0 in `calculate_score`. -/
theorem c7_distance_amended (loc : List Char) (item : Item) :
    (loc.isEmpty = true → calculate_distance loc = MAX_DISTANCE_MILES)
    ∧ (∀ c, (nearby_cities.find? fun e => is_sub e.1 (to_lower loc)) = some c →
        calculate_distance loc = c.2)
    ∧ (is_sub (String.toList "palo alto") (to_lower loc) = true →
        calculate_distance loc = 0)
    ∧ ((∀ c ∈ nearby_cities, is_sub c.1 (to_lower loc) = false) →
        calculate_distance loc = MAX_DISTANCE_MILES)
    ∧ (item.shippable = false → item.distance_miles = some MAX_DISTANCE_MILES →
        proximity_score item = 0) := by
  have hfind : ∀ c, (nearby_cities.find? fun e => is_sub e.1 (to_lower loc)) = some c →
      calculate_distance loc = c.2 := by
    intro c hc
    by_cases hE : loc.isEmpty = true
    · exfalso
      have hnil : loc = [] := by
        cases loc with
        | nil => rfl
        | cons a l => exact absurd hE (by simp)
      rw [hnil] at hc
      have hn : (nearby_cities.find? fun e => is_sub e.1 (to_lower [])) = none := by decide
      rw [hn] at hc
      exact Option.noConfusion hc
    · rw [calculate_distance, if_neg hE, hc]
  refine ⟨fun h => by rw [calculate_distance, if_pos h], hfind, ?_, ?_, ?_⟩
  · intro hpa
    exact hfind (String.toList "palo alto", 0)
      (List.find?_cons_of_pos _ (by exact hpa))
  · intro hnone
    by_cases hE : loc.isEmpty = true
    · rw [calculate_distance, if_pos hE]
    · rw [calculate_distance, if_neg hE,
        List.find?_eq_none.mpr fun x hx => by rw [hnone x hx]; exact Bool.false_ne_true]
  · intro hship hdist
    rw [proximity_score, if_neg (by rw [hship]; exact Bool.false_ne_true), hdist]
    norm_num [MAX_DISTANCE_MILES]

/-- Witness for C7 (amended): a concrete "Palo Alto, CA" location and a
concrete non-shippable item at the default distance. -/
theorem c7_distance_amended_witness :
    calculate_distance (String.toList "Palo Alto, CA") = 0 ∧
      proximity_score ⟨1, none, none, false, some MAX_DISTANCE_MILES⟩ = 0 := by
  have h := c7_distance_amended (String.toList "Palo Alto, CA")
    ⟨1, none, none, false, some MAX_DISTANCE_MILES⟩
  exact ⟨h.2.2.1 (by decide), h.2.2.2.2 rfl rfl⟩

/-- Counterexample to C7 as stated: the location "Moving sale in San Jose
and Palo Alto" contains the known city substring "san jose" (value 15) yet
`calculate_distance` returns 0, not that city's value, because "palo alto"
is matched first; moreover an unmatched location yields
`MAX_DISTANCE_MILES`, at which the proximity score of a non-shippable item
is exactly 0 — the default IS penalized to a zero proximity contribution. -/
theorem c7_distance_counterexample :
    is_sub (String.toList "san jose")
        (to_lower (String.toList "Moving sale in San Jose and Palo Alto")) = true
    ∧ calculate_distance (String.toList "Moving sale in San Jose and Palo Alto") = 0
    ∧ (String.toList "san jose", (15:ℚ)) ∈ nearby_cities
    ∧ (0:ℚ) ≠ 15
    ∧ calculate_distance [] = MAX_DISTANCE_MILES
    ∧ proximity_score ⟨1, none, none, false, some MAX_DISTANCE_MILES⟩ = 0 := by
  refine ⟨by decide, by decide, by decide, by norm_num, by decide, ?_⟩
  rw [proximity_score, if_neg (by exact Bool.false_ne_true)]
  norm_num [MAX_DISTANCE_MILES]

/-- C5: `mark_seen` inserts `first_seen_at = last_seen_at = now` with
`sent_in_email = 0` on first sighting; on id conflict it updates only
`last_seen_at`, leaving `first_seen_at` and `sent_in_email` untouched; in
particular marking the same id twice keeps the stored `first_seen_at` and
`sent_in_email` and moves only `last_seen_at`; other rows are unchanged. -/
theorem c5_mark_seen_upsert (db : Db) (item : DbItem) (t1 t2 : Nat) :
    (db item.id = none →
      mark_seen db item t1 item.id =
        some ⟨item.url, item.title, item.source, t1, t1, false⟩)
    ∧ (∀ r, db item.id = some r →
        mark_seen db item t2 item.id =
          some ⟨r.url, r.title, r.source, r.first_seen_at, t2, r.sent_in_email⟩)
    ∧ ((mark_seen (mark_seen db item t1) item t2 item.id).map SeenRecord.first_seen_at =
          ((mark_seen db item t1) item.id).map SeenRecord.first_seen_at
        ∧ (mark_seen (mark_seen db item t1) item t2 item.id).map SeenRecord.last_seen_at =
          some t2
        ∧ (mark_seen (mark_seen db item t1) item t2 item.id).map SeenRecord.sent_in_email =
          ((mark_seen db item t1) item.id).map SeenRecord.sent_in_email)
    ∧ (∀ k, k ≠ item.id → mark_seen db item t1 k = db k) := by
  refine ⟨?_, ?_, ?_, ?_⟩
  · intro h
    simp [mark_seen, h]
  · intro r h
    simp [mark_seen, h]
  · cases h : db item.id with
    | none => simp [mark_seen, h]
    | some r => simp [mark_seen, h]
  · intro k hk
    simp [mark_seen, hk]

/-- Witness for C5: inserting a fresh item into the empty table at time 1,
then marking it again at time 2, keeps `first_seen_at = 1` and sets
`last_seen_at = 2`. -/
theorem c5_mark_seen_upsert_witness :
    mark_seen (fun _ => none) ⟨7, [], [], []⟩ 1 7 = some ⟨[], [], [], 1, 1, false⟩
    ∧ (mark_seen (mark_seen (fun _ => none) ⟨7, [], [], []⟩ 1) ⟨7, [], [], []⟩ 2 7).map
        SeenRecord.first_seen_at = some 1 := by
  have h := c5_mark_seen_upsert (fun _ => none) ⟨7, [], [], []⟩ 1 2
  exact ⟨h.1 rfl, (h.2.2.1.1).trans (by rw [h.1 rfl]; rfl)⟩

lemma ebay_search_of_use_api_false (s : EbayState) (env : SearchEnv)
    (h : s.use_api = false) : ebay_search s env = ⟨s, false, env.html⟩ := by
  rw [ebay_search, if_neg]
  rw [h]
  exact Bool.false_ne_true

lemma search_trace_of_use_api_false (s : EbayState) (h : s.use_api = false) :
    ∀ envs : List SearchEnv, ∀ b ∈ search_trace s envs, b = false := by
  intro envs
  induction envs with
  | nil => intro b hb; cases hb
  | cons e es ih =>
      intro b hb
      rw [search_trace, ebay_search_of_use_api_false s e h] at hb
      rcases List.mem_cons.mp hb with hb | hb
      · exact hb
      · exact ih b hb

lemma auth_failure_downgrades (s : EbayState) (env : SearchEnv)
    (hAF : auth_failure s env) : (ebay_search s env).state.use_api = false := by
  obtain ⟨⟨huse, hnotok, happ⟩, hfail⟩ := hAF
  rw [ebay_search, if_pos huse]
  rw [search_api, get_access_token.eq_def, if_neg hnotok,
    if_neg (by rw [happ]; exact Bool.noConfusion), hfail]

/-- C6: the eBay adapter degrades stickily: with no credential configured
the API path is never attempted; an OAuth failure (invalid credential:
non-200 or exception) clears `use_api` during that call; and once
`use_api` is false every later `search` call skips the API path entirely,
whatever the environment does. -/
theorem c6_sticky_html_fallback (s : EbayState) (env : SearchEnv)
    (envs : List SearchEnv) :
    ((init_state false).use_api = false)
    ∧ (auth_failure s env → (ebay_search s env).state.use_api = false)
    ∧ (s.use_api = false → ∀ b ∈ search_trace s envs, b = false)
    ∧ (auth_failure s env →
        ∀ b ∈ search_trace (ebay_search s env).state envs, b = false) := by
  refine ⟨rfl, auth_failure_downgrades s env, ?_, ?_⟩
  · intro h
    exact search_trace_of_use_api_false s h envs
  · intro hAF
    exact search_trace_of_use_api_false _ (auth_failure_downgrades s env hAF) envs

/-- Witness for C6: a configured adapter whose first OAuth request fails
never attempts the API on a later call, even when that call's environment
would have granted a token. -/
theorem c6_sticky_html_fallback_witness :
    (ebay_search (init_state true) ⟨0, .fail, .err, [9]⟩).state.use_api = false
    ∧ ∀ b ∈ search_trace (ebay_search (init_state true) ⟨0, .fail, .err, [9]⟩).state
        [⟨1, .ok 5 7200, .ok [1], [2]⟩, ⟨2, .ok 6 7200, .ok [3], [4]⟩], b = false := by
  have h := c6_sticky_html_fallback (init_state true) ⟨0, .fail, .err, [9]⟩
    [⟨1, .ok 5 7200, .ok [1], [2]⟩, ⟨2, .ok 6 7200, .ok [3], [4]⟩]
  have hAF : auth_failure (init_state true) ⟨0, .fail, .err, [9]⟩ := by
    refine ⟨⟨rfl, ?_, rfl⟩, rfl⟩
    rw [init_state]
    simp
  exact ⟨h.2.1 hAF, h.2.2.2 hAF⟩

lemma retry_go_all_fail {E A : Type} (op : Nat → Except E A) (errs : Nat → E)
    (hop : ∀ k, op k = .error (errs k)) :
    ∀ fuel attempt,
      retry_go op attempt fuel = (.error (errs (attempt + fuel)), fuel + 1) := by
  intro fuel
  induction fuel with
  | zero =>
      intro attempt
      rw [retry_go, hop attempt, Nat.add_zero]
  | succ n ih =>
      intro attempt
      rw [retry_go, hop attempt]
      rw [ih (attempt + 1)]
      have : attempt + 1 + n = attempt + (n + 1) := by omega
      rw [this]

/-- C8: an operation failing on every attempt is tried exactly
`max_retries + 1` times and the last error is re-raised; the delay before
the `(n+1)`-th attempt is `min(base_delay * 2^n, max_delay)`, a sequence
that is non-decreasing (for nonnegative base delay) and capped at
`max_delay`. -/
theorem c8_retry_exhaustion {E A : Type} (op : Nat → Except E A) (errs : Nat → E)
    (m : Nat) (base_delay max_delay : ℚ)
    (hop : ∀ k, op k = .error (errs k)) (hb : 0 ≤ base_delay) :
    retry_on_failure op m = (.error (errs m), m + 1)
    ∧ (∀ n, retry_delay base_delay max_delay n ≤ retry_delay base_delay max_delay (n + 1))
    ∧ (∀ n, retry_delay base_delay max_delay n ≤ max_delay) := by
  refine ⟨?_, ?_, fun n => min_le_right _ _⟩
  · rw [retry_on_failure, retry_go_all_fail op errs hop m 0, Nat.zero_add]
  · intro n
    refine min_le_min ?_ (le_refl _)
    have hpow : (2:ℚ) ^ n ≤ 2 ^ (n + 1) := by
      have h2 : (2:ℚ) ^ (n + 1) = 2 * 2 ^ n := by ring
      have hp : (0:ℚ) ≤ 2 ^ n := by positivity
      rw [h2]
      linarith
    exact mul_le_mul_of_nonneg_left hpow hb

/-- Witness for C8: a four-attempt run of an always-failing operation with
the default parameters. -/
theorem c8_retry_exhaustion_witness :
    retry_on_failure (fun _ => (Except.error 0 : Except Nat Nat)) 3 = (Except.error 0, 4)
    ∧ retry_delay 1 60 2 ≤ retry_delay 1 60 3
    ∧ retry_delay 1 60 9 ≤ 60 := by
  have h := c8_retry_exhaustion (fun _ => (Except.error 0 : Except Nat Nat))
    (fun _ => 0) 3 1 60 (fun k => rfl) (by norm_num)
  exact ⟨h.1, h.2.1 2, h.2.2 9⟩

lemma score_ge_total (a b : Item) : (score_ge a b || score_ge b a) = true := by
  rcases le_total (calculate_score a) (calculate_score b) with h | h <;>
    simp [score_ge, h]

lemma score_ge_trans (a b c : Item) (h1 : score_ge a b = true) (h2 : score_ge b c = true) :
    score_ge a c = true := by
  rw [score_ge, decide_eq_true_eq] at h1 h2 ⊢
  exact le_trans h2 h1

/-- C4: the selection keeps exactly the items passing the 0.3 colour gate,
sorts them descending by composite score with a stable sort (a pair in
score order — in particular a tie — in the gated list stays in that order
after sorting), and takes the first `MAX_ITEMS_PER_EMAIL`; with 50 items
all passing the gate, `top_items` has length exactly 30. -/
theorem c4_selection (items : List Item) :
    (∀ x ∈ select_top items, COLOR_THRESHOLD ≤ x.color_score)
    ∧ (∀ x ∈ items, COLOR_THRESHOLD ≤ x.color_score → x ∈ plum_sorted items)
    ∧ ((select_top items).Pairwise fun a b => calculate_score b ≤ calculate_score a)
    ∧ (∀ a b : Item,
        List.Sublist [a, b] (items.filter fun i => decide (COLOR_THRESHOLD ≤ i.color_score)) →
        calculate_score b ≤ calculate_score a →
        List.Sublist [a, b] (plum_sorted items))
    ∧ (items.length = 50 → (∀ i ∈ items, COLOR_THRESHOLD ≤ i.color_score) →
        (select_top items).length = 30) := by
  refine ⟨?_, ?_, ?_, ?_, ?_⟩
  · intro x hx
    have hx1 : x ∈ plum_sorted items := (List.take_sublist _ _).subset hx
    have hx2 : x ∈ items.filter fun i => decide (COLOR_THRESHOLD ≤ i.color_score) :=
      ((List.mergeSort_perm _ _).mem_iff).mp hx1
    exact of_decide_eq_true (List.mem_filter.mp hx2).2
  · intro x hx hthr
    rw [plum_sorted, (List.mergeSort_perm _ _).mem_iff]
    exact List.mem_filter.mpr ⟨hx, decide_eq_true hthr⟩
  · have hs := List.sorted_mergeSort score_ge_trans score_ge_total
      (items.filter fun i => decide (COLOR_THRESHOLD ≤ i.color_score))
    have hs2 : (plum_sorted items).Pairwise
        fun a b => calculate_score b ≤ calculate_score a := by
      refine hs.imp ?_
      intro a b hab
      rw [score_ge, decide_eq_true_eq] at hab
      exact hab
    exact List.Pairwise.sublist (List.take_sublist _ _) hs2
  · intro a b hsub hscore
    refine List.sublist_mergeSort score_ge_trans score_ge_total ?_ hsub
    refine List.Pairwise.cons ?_ (List.pairwise_singleton _ _)
    intro y hy
    rw [List.mem_singleton.mp hy]
    exact decide_eq_true hscore
  · intro hlen hall
    have hfeq : (items.filter fun i => decide (COLOR_THRESHOLD ≤ i.color_score)) = items :=
      List.filter_eq_self.mpr fun a ha => decide_eq_true (hall a ha)
    rw [select_top, List.length_take, plum_sorted, hfeq,
      (List.mergeSort_perm items score_ge).length_eq, hlen]
    norm_num [MAX_ITEMS_PER_EMAIL]

/-- Witness for C4: 50 identical items all passing the colour gate select
down to exactly 30. -/
theorem c4_selection_witness :
    (select_top (List.replicate 50 ⟨1, none, none, true, none⟩)).length = 30 := by
  refine (c4_selection (List.replicate 50 ⟨1, none, none, true, none⟩)).2.2.2.2
    (by simp) ?_
  intro i hi
  rw [List.eq_of_mem_replicate hi, COLOR_THRESHOLD]
  norm_num

end PlumFinder
